import Mathlib

/-!
Verification development for the provider-dispatch and orchestration cores of
the perfect-fit-marketing repository: a shallow embedding of
`src/api_config.py` (APIManager: provider registry, rate limiting, provider
selection) and `src/agency_orchestrator.py` (AgencyOrchestrator: task runner,
scheduler wrappers, health checks), with theorems settling the frozen claims.

Modelling conventions:
* Python `datetime` instants become `Nat` seconds; `timedelta` comparisons
  against one minute become comparisons against 60.  Truncated `Nat`
  subtraction agrees with the Python comparisons used (`d < 1 minute` and
  `d >= 1 minute`) even when the clock would run backwards, because a negative
  timedelta is `< 1 minute` and not `>= 1 minute`, just like `0`.
* Python `int` configuration limits become `Int` (they may be set to zero or
  negative by a caller); usage counters, which the code only ever zeroes or
  increments, become `Nat` and are cast where compared with limits.
* Python dicts become association lists in insertion order: assigning to an
  existing key keeps its position, a new key is appended (CPython dict
  semantics, which is what makes registration order the tie-break).
* Database and file I/O (sqlite logging, json config saving) and the logging
  calls are omitted: they do not affect the in-memory state the claims are
  about.  The sqlite connectivity probe in `health_check` is modelled by a
  boolean `db_ok` parameter selecting the `try` or the `except` branch.
* A Python `KeyError` / raised exception is modelled with `Except`.
-/

namespace PerfectFit

/-- Association-list lookup, modelling Python dict indexing and the `in`
test: `getA k l = none` iff `k not in l`. -/
def getA {α : Type} (k : String) : List (String × α) → Option α
  | [] => none
  | p :: t => if p.1 = k then some p.2 else getA k t

/-- Association-list assignment, modelling Python `d[k] = v`: an existing key
keeps its position in insertion order, a new key is appended at the end. -/
def setA {α : Type} (k : String) (v : α) : List (String × α) → List (String × α)
  | [] => [(k, v)]
  | p :: t => if p.1 = k then (k, v) :: t else p :: setA k v t

/-- Substring test on character lists, modelling Python `needle in hay` for
strings (the empty needle is contained in everything). -/
def substrIn (needle : List Char) : List Char → Bool
  | [] => needle.isEmpty
  | c :: t => needle.isPrefixOf (c :: t) || substrIn needle t

/-- Substring test on strings: `strIn needle hay` models Python
`needle in hay`. -/
def strIn (needle hay : String) : Bool :=
  substrIn needle.data hay.data

/-- Character-wise lowercasing, modelling Python `str.lower()` on the ASCII
provider names the registry uses. -/
def strLower (s : String) : String :=
  String.mk (s.data.map Char.toLower)

/-- Embeds the `APIConfig` dataclass of src/api_config.py (configuration of a
single provider).  Field defaults match the Python defaults. -/
structure APIConfig where
  name : String
  api_key : String := ""
  base_url : String := ""
  rate_limit_per_minute : Int := 60
  rate_limit_per_day : Int := 1000
  free_tier_limit : Int := 100
  enabled : Bool := true
  priority : Int := 1
deriving DecidableEq, Repr

/-- Embeds the `APIUsage` dataclass of src/api_config.py (live usage counters
of a single provider).  Field defaults match the Python defaults. -/
structure APIUsage where
  api_name : String
  requests_today : Nat := 0
  requests_this_minute : Nat := 0
  last_request_time : Option Nat := none
  total_requests : Nat := 0
  errors_today : Nat := 0
  last_error_time : Option Nat := none
deriving DecidableEq, Repr

/-- The in-memory state of `APIManager`: the `apis` and `usage` dicts, as
association lists in insertion (= registration) order. -/
structure APIManagerState where
  apis : List (String × APIConfig)
  usage : List (String × APIUsage)
deriving DecidableEq, Repr

/-- An `APIManager` with no providers registered. -/
def emptyManager : APIManagerState :=
  { apis := [], usage := [] }

/-- Embeds `APIManager.can_make_request` (src/api_config.py lines 193-212).
The checks are performed in source order: membership and enabled flag, then
the daily limit, then the per-minute limit (only when a last request time is
recorded).  A lookup of a name that is in `apis` but not in `usage` would
raise `KeyError` in Python; that path is modelled as `false` (it is
unreachable while the two dicts are kept in sync, as every registration path
in the source does). -/
def can_make_request (s : APIManagerState) (now : Nat) (api_name : String) : Bool :=
  match getA api_name s.apis with
  | none => false
  | some config =>
    if config.enabled = false then false
    else
      match getA api_name s.usage with
      | none => false
      | some usage =>
        if (usage.requests_today : Int) ≥ config.rate_limit_per_day then false
        else
          match usage.last_request_time with
          | none => true
          | some t =>
            if now - t < 60 ∧ (usage.requests_this_minute : Int) ≥ config.rate_limit_per_minute
            then false
            else true

/-- The counter updates of `APIManager.record_request` (src/api_config.py
lines 214-243), minus the two database-logging calls at the end, applied to
one usage record in source order: the totals, the minute-window reset when at
least a minute passed since the last request, the minute counter and
timestamp, and the error counters when the status code is `>= 400`. -/
def record_update (usage0 : APIUsage) (now : Nat) (status_code : Nat) : APIUsage :=
  let u1 := { usage0 with
    total_requests := usage0.total_requests + 1,
    requests_today := usage0.requests_today + 1 }
  let u2 := match u1.last_request_time with
    | some t => if 60 ≤ now - t then { u1 with requests_this_minute := 0 } else u1
    | none => u1
  let u3 := { u2 with
    requests_this_minute := u2.requests_this_minute + 1,
    last_request_time := some now }
  if 400 ≤ status_code then
    { u3 with errors_today := u3.errors_today + 1, last_error_time := some now }
  else u3

/-- Embeds `APIManager.record_request` proper: fetch the usage entry
(creating a fresh one for an unknown name, as the source does), apply the
counter updates, and store the result back under the same key. -/
def record_request (s : APIManagerState) (api_name : String) (now : Nat)
    (status_code : Nat) : APIManagerState :=
  let usage0 := match getA api_name s.usage with
    | none => { api_name := api_name : APIUsage }
    | some u => u
  { s with usage := setA api_name (record_update usage0 now status_code) s.usage }

/-- Embeds `APIManager.add_api` (src/api_config.py lines 327-331), minus the
`save_configuration` file write: the config is stored under its own name and
the usage entry for that name is replaced by a fresh zeroed record.  Note the
source performs no validation of the rate limits. -/
def add_api (s : APIManagerState) (config : APIConfig) : APIManagerState :=
  { s with
    apis := setA config.name config s.apis,
    usage := setA config.name { api_name := config.name } s.usage }

/-- Stable insertion into a list sorted ascending by `priority`: the new
element goes after every element whose priority is less than or equal to its
own. -/
def insertByPriority (c : APIConfig) : List APIConfig → List APIConfig
  | [] => [c]
  | x :: xs => if x.priority ≤ c.priority then x :: insertByPriority c xs else c :: x :: xs

/-- Stable ascending sort by `priority`, modelling Python
`list.sort(key=lambda x: x.priority)` (Python sorts are stable, so ties keep
list order, i.e. registration order). -/
def sortByPriority (l : List APIConfig) : List APIConfig :=
  l.foldl (fun acc c => insertByPriority c acc) []

/-- Embeds `APIManager.get_available_api` (src/api_config.py lines 170-191):
filter the registry, in registration order, to the enabled providers whose
key contains the requested type as a lowercase substring; if none match
return `none`; otherwise sort by priority (stable) and return the first
provider that passes `can_make_request`. -/
def get_available_api (s : APIManagerState) (api_type : String) (now : Nat) :
    Option APIConfig :=
  let type_apis := (s.apis.filter
      (fun p => strIn (strLower api_type) (strLower p.1) && p.2.enabled)).map (fun p => p.2)
  if type_apis.isEmpty then none
  else (sortByPriority type_apis).find? (fun c => can_make_request s now c.name)

/-- Modelled from the spec: `eligible(capability)` is the list of all enabled
providers whose name matches the requested capability, sorted ascending by
priority with ties broken by registration order (stable).  Used to state the
refinement half of the selection claim. -/
def eligibleSpec (s : APIManagerState) (capability : String) : List APIConfig :=
  sortByPriority ((s.apis.filter
      (fun p => strIn (strLower capability) (strLower p.1) && p.2.enabled)).map (fun p => p.2))

/-- One dispatch round as performed by every caller in
src/api_integrations.py (e.g. `validate_email`, lines 76-107): select a
provider with `get_available_api`; if one is found, perform the call and
`record_request` under the provider's own name (status 200 on success).
Returns the new state and the name of the provider used, if any. -/
def dispatchOnce (s : APIManagerState) (capability : String) (now : Nat) :
    APIManagerState × Option String :=
  match get_available_api s capability now with
  | none => (s, none)
  | some config => (record_request s config.name now 200, some config.name)

/-- One attempted request against a named provider at a given time with a
given outcome status, for driving sequences of guarded dispatches. -/
structure DispatchAttempt where
  api_name : String
  now : Nat
  status_code : Nat
deriving DecidableEq, Repr

/-- A guarded dispatch step: the request is recorded only when
`can_make_request` passes for that provider at that time, which is exactly
the discipline of the dispatch sites in the source (selection via
`get_available_api` filters on `can_make_request`). -/
def guardedRecord (s : APIManagerState) (op : DispatchAttempt) : APIManagerState :=
  if can_make_request s op.now op.api_name then
    record_request s op.api_name op.now op.status_code
  else s

/-- Runs a whole sequence of guarded dispatch attempts. -/
def runGuarded (s : APIManagerState) (ops : List DispatchAttempt) : APIManagerState :=
  ops.foldl guardedRecord s

/-- The daily-quota invariant: every usage record in the registry is within
the daily limit of its provider's configuration. -/
def dailyInv (s : APIManagerState) : Bool :=
  s.usage.all (fun p => match getA p.1 s.apis with
    | none => true
    | some config => decide ((p.2.requests_today : Int) ≤ config.rate_limit_per_day))

/-- Embeds the `AgentStatus` dataclass of src/agency_orchestrator.py.  The
`performance_score` field (a float that no method of the file ever writes) is
omitted. -/
structure AgentStatus where
  name : String
  status : String
  last_run : Option Nat := none
  last_success : Option Nat := none
  error_count : Nat := 0
  tasks_completed : Nat := 0
deriving DecidableEq, Repr

/-- Embeds the `SystemMetrics` dataclass of src/agency_orchestrator.py.
Python floats are modelled as exact rationals. -/
structure SystemMetrics where
  leads_generated_today : Nat := 0
  leads_qualified_today : Nat := 0
  outreach_sent_today : Nat := 0
  proposals_created_today : Nat := 0
  deals_closed_today : Nat := 0
  revenue_generated_today : ℚ := 0
  system_uptime : ℚ := 0
  error_rate : ℚ := 0
deriving DecidableEq, Repr

/-- Embeds `AgencyOrchestrator.run_agent_task` (src/agency_orchestrator.py
lines 268-312), minus the `log_agent_activity` database writes.  The agent
function's execution is abstracted by its `outcome`: `Except.ok r` when
`task_function(*args)` returns `r`, `Except.error e` when it raises.  On
success the agent's entry becomes idle with `tasks_completed` incremented and
`error_count` zeroed and the result is returned; on failure the entry becomes
`error` (or `disabled` once `error_count` reaches the threshold,
`self.max_error_threshold`, default 5) and `none` is returned.  An
`agent_name` absent from the status dict would raise an uncaught `KeyError`
inside the `except` handler; that is the `Except.error` result. -/
def run_agent_task {α : Type} (threshold : Nat) (m : List (String × AgentStatus))
    (agent_name : String) (now : Nat) (outcome : Except String α) :
    Except String (List (String × AgentStatus) × Option α) :=
  match getA agent_name m with
  | none => Except.error "KeyError"
  | some st =>
    let st1 := { st with status := "active", last_run := some now }
    match outcome with
    | Except.ok r =>
      let st2 := { st1 with
        status := "idle", last_success := some now,
        tasks_completed := st1.tasks_completed + 1, error_count := 0 }
      Except.ok (setA agent_name st2 m, some r)
    | Except.error _ =>
      let st2 := { st1 with status := "error", error_count := st1.error_count + 1 }
      let st3 := if threshold ≤ st2.error_count then { st2 with status := "disabled" } else st2
      Except.ok (setA agent_name st3 m, none)

/-- Embeds `AgencyOrchestrator.run_lead_generation` (src/agency_orchestrator.py
lines 314-322), the scheduler wrapper invoked by a due tick:
`config_enabled` is `self.config['lead_generation']['enabled']`,
`agent_present` is whether `self.agents.get('lead_generation')` is not None.
The returned boolean records whether `run_agent_task` was invoked with the
agent's function (i.e. whether the agent ran).  Note the source consults only
the configuration flag, never `self.agent_status[...]`: there is no check of
the `disabled` status anywhere on this path. -/
def run_lead_generation {α : Type} (config_enabled : Bool) (agent_present : Bool)
    (threshold : Nat) (m : List (String × AgentStatus)) (now : Nat)
    (outcome : Except String α) :
    Except String (List (String × AgentStatus) × Bool) :=
  if config_enabled = false then Except.ok (m, false)
  else if agent_present = false then Except.ok (m, false)
  else
    match run_agent_task threshold m "lead_generation" now outcome with
    | Except.error e => Except.error e
    | Except.ok (m2, _) => Except.ok (m2, true)

/-- The sum of the `error_count` fields of all agents, as computed by
`health_check`. -/
def totalErrors (m : List (String × AgentStatus)) : Nat :=
  (m.map (fun p => p.2.error_count)).sum

/-- The sum of the `tasks_completed` fields of all agents, as computed by
`health_check`. -/
def totalTasks (m : List (String × AgentStatus)) : Nat :=
  (m.map (fun p => p.2.tasks_completed)).sum

/-- Embeds `AgencyOrchestrator.health_check` (src/agency_orchestrator.py
lines 400-425) restricted to its effect on `self.metrics`: when the database
probe succeeds (`db_ok`), the uptime is recomputed in hours and the error
rate is set to `(total_errors / max(total_tasks, 1)) * 100`; when the probe
raises, the `except` branch only logs and the metrics are left unchanged. -/
def health_check (db_ok : Bool) (m : List (String × AgentStatus))
    (start_time now : Nat) (metrics : SystemMetrics) : SystemMetrics :=
  if db_ok then
    { metrics with
      system_uptime := ((now - start_time : Nat) : ℚ) / 3600,
      error_rate := ((totalErrors m : ℚ) / ((max (totalTasks m) 1 : Nat) : ℚ)) * 100 }
  else metrics

/-! Concrete registry and orchestrator states used by the scenario parts of
the claims and by the witnesses. -/

/-- Provider `A` of the selection scenario: priority 1, daily limit 2. -/
def cfgA : APIConfig := { name := "alead", rate_limit_per_day := 2, priority := 1 }

/-- Provider `B` of the selection scenario: priority 2, daily limit 100. -/
def cfgB : APIConfig := { name := "blead", rate_limit_per_day := 100, priority := 2 }

/-- Registry holding providers `A` and `B`, both serving the `lead`
capability (their names contain it), registered in that order. -/
def scenarioState : APIManagerState := add_api (add_api emptyManager cfgA) cfgB

/-- A config with non-positive rate limits, which `add_api` accepts
unchecked. -/
def cfgZero : APIConfig :=
  { name := "zerolimit", rate_limit_per_minute := 0, rate_limit_per_day := 0,
    free_tier_limit := 0 }

/-- A burst of guarded dispatch attempts driving provider `A` past its daily
limit of 2 and one failing call against provider `B`. -/
def c2ops : List DispatchAttempt :=
  [⟨"alead", 0, 200⟩, ⟨"alead", 1, 200⟩, ⟨"alead", 2, 200⟩, ⟨"blead", 3, 500⟩]

/-- The scenario registry after one successful recorded request against
provider `A` at time 3. -/
def c4state : APIManagerState := record_request scenarioState "alead" 3 200

/-- The usage record of provider `A` inside `c4state`. -/
def c4usage : APIUsage :=
  { api_name := "alead", requests_today := 1, requests_this_minute := 1,
    last_request_time := some 3, total_requests := 1 }

/-- The lead-generation agent one failure short of the error threshold. -/
def fourErrorsLG : AgentStatus :=
  { name := "lead_generation", status := "error", error_count := 4 }

/-- The lead-generation agent as `run_agent_task` leaves it after its fifth
consecutive failure at time 9: disabled. -/
def disabledLG : AgentStatus :=
  { name := "lead_generation", status := "disabled", last_run := some 9, error_count := 5 }

/-- A one-agent status map with one recorded error and two completed
tasks. -/
def c6map : List (String × AgentStatus) :=
  [("lead_scoring", { name := "lead_scoring", status := "error", error_count := 1,
                      tasks_completed := 2 })]

/-- A one-agent status map with two consecutive errors and seven completed
tasks. -/
def c7map : List (String × AgentStatus) :=
  [("prospect_research", { name := "prospect_research", status := "error", error_count := 2,
                           tasks_completed := 7 })]

/-- A one-agent status map with a healthy idle agent. -/
def c8map : List (String × AgentStatus) :=
  [("sales_automation", { name := "sales_automation", status := "idle" })]

/-! Helper lemmas about the association-list operations and the registry
functions, shared by the claim theorems. -/

/-- Looking up the key just assigned returns the assigned value. -/
theorem getA_setA_self {α : Type} (k : String) (v : α) (l : List (String × α)) :
    getA k (setA k v l) = some v := by
  induction l with
  | nil => simp [getA, setA]
  | cons p t ih =>
    by_cases h : p.1 = k
    · simp [setA, h, getA]
    · simp [setA, h, getA, ih]

/-- Assignment leaves every other key's lookup unchanged. -/
theorem getA_setA_ne {α : Type} {k n : String} (v : α) (l : List (String × α))
    (h : n ≠ k) : getA n (setA k v l) = getA n l := by
  induction l with
  | nil => simp [getA, setA, Ne.symm h]
  | cons p t ih =>
    by_cases hp : p.1 = k
    · simp [setA, hp, getA, Ne.symm h, ih]
    · simp [setA, hp, getA, ih]

/-- Every entry of an assigned list is either the assigned pair or an entry
of the original list. -/
theorem mem_setA {α : Type} {p : String × α} {k : String} {v : α} {l : List (String × α)}
    (h : p ∈ setA k v l) : p = (k, v) ∨ p ∈ l := by
  induction l with
  | nil =>
    simp [setA] at h
    exact Or.inl h
  | cons q t ih =>
    simp only [setA] at h
    by_cases hq : q.1 = k
    · rw [if_pos hq] at h
      rcases List.mem_cons.mp h with h | h
      · exact Or.inl h
      · exact Or.inr (List.mem_cons_of_mem _ h)
    · rw [if_neg hq] at h
      rcases List.mem_cons.mp h with h | h
      · exact Or.inr (by simp [h])
      · rcases ih h with h2 | h2
        · exact Or.inl h2
        · exact Or.inr (List.mem_cons_of_mem _ h2)

/-- The recorded update increments the daily counter by exactly one. -/
theorem record_update_requests_today (usage0 : APIUsage) (now : Nat) (status_code : Nat) :
    (record_update usage0 now status_code).requests_today = usage0.requests_today + 1 := by
  obtain ⟨nm, rt, rm, lrt, tr, er, lerr⟩ := usage0
  cases lrt with
  | none =>
    by_cases h400 : 400 ≤ status_code <;> simp [record_update, h400]
  | some t =>
    by_cases h60 : 60 ≤ now - t <;> by_cases h400 : 400 ≤ status_code <;>
      simp [record_update, h60, h400]

/-- A passing `can_make_request` check means the provider is registered with
a usage entry strictly below its daily limit. -/
theorem can_make_request_true_elim {s : APIManagerState} {now : Nat} {api_name : String}
    (h : can_make_request s now api_name = true) :
    ∃ config usage, getA api_name s.apis = some config ∧ getA api_name s.usage = some usage ∧
      config.enabled = true ∧ (usage.requests_today : Int) < config.rate_limit_per_day := by
  unfold can_make_request at h
  split at h
  · exact absurd h (by simp)
  rename_i config hc
  split at h
  · exact absurd h (by simp)
  rename_i he
  split at h
  · exact absurd h (by simp)
  rename_i usage hu
  split at h
  · exact absurd h (by simp)
  rename_i hd
  have he2 : config.enabled = true := by revert he; cases config.enabled <;> simp
  exact ⟨config, usage, hc, hu, he2, lt_of_not_ge hd⟩

/-- A name missing from the provider map fails `can_make_request` at its
very first check. -/
theorem can_make_request_of_unregistered {s : APIManagerState} {now : Nat}
    {api_name : String} (h : getA api_name s.apis = none) :
    can_make_request s now api_name = false := by
  unfold can_make_request
  rw [h]

/-- Propositional reading of the daily-quota invariant. -/
theorem dailyInv_iff (s : APIManagerState) :
    dailyInv s = true ↔ ∀ p ∈ s.usage, ∀ config, getA p.1 s.apis = some config →
      (p.2.requests_today : Int) ≤ config.rate_limit_per_day := by
  unfold dailyInv
  rw [List.all_eq_true]
  constructor
  · intro h p hp config hc
    have h2 := h p hp
    rw [hc] at h2
    simpa using h2
  · intro h p hp
    cases hc : getA p.1 s.apis with
    | none => rfl
    | some config => simpa using h p hp config hc

/-- One guarded dispatch step preserves the daily-quota invariant: the
request is only recorded after `can_make_request` certified strict room
under the daily limit, and recording adds exactly one. -/
theorem dailyInv_guardedRecord {s : APIManagerState} (op : DispatchAttempt)
    (h : dailyInv s = true) : dailyInv (guardedRecord s op) = true := by
  unfold guardedRecord
  cases hcm : can_make_request s op.now op.api_name with
  | false => simpa using h
  | true =>
    rw [if_pos rfl]
    obtain ⟨config, usage, hcfg, hu, hen, hlt⟩ := can_make_request_true_elim hcm
    rw [dailyInv_iff] at h ⊢
    intro p hp config2 hc2
    have husage : (record_request s op.api_name op.now op.status_code).usage
        = setA op.api_name (record_update usage op.now op.status_code) s.usage := by
      unfold record_request
      rw [hu]
    have hapis : (record_request s op.api_name op.now op.status_code).apis = s.apis := rfl
    rw [husage] at hp
    rw [hapis] at hc2
    rcases mem_setA hp with hpe | hpm
    · subst hpe
      simp only [Prod.fst] at hc2
      rw [hcfg] at hc2
      cases hc2
      simp only [Prod.snd]
      rw [record_update_requests_today]
      push_cast
      omega
    · exact h p hpm config2 hc2

/-! Claim theorems. -/

/-- C1 (code bug): `run_agent_task` does disable an agent at the error
threshold (first conjunct: the fifth consecutive failure turns the status
to `disabled`), but the scheduler wrapper never consults that status: on the
next due tick with the configuration flag enabled, `run_lead_generation`
invokes the disabled agent's task anyway (second conjunct, invoked = true),
and a success then silently resets the agent to idle with a zero error
count.  No `reset(agentName)` operation exists anywhere in the source. -/
theorem C1_disabled_agent_still_invoked :
    run_agent_task 5 [("lead_generation", fourErrorsLG)] "lead_generation" 9
        (Except.error "boom" : Except String Nat)
      = Except.ok ([("lead_generation", disabledLG)], none)
    ∧ run_lead_generation true true 5 [("lead_generation", disabledLG)] 11
        (Except.ok (0 : Nat))
      = Except.ok ([("lead_generation",
          { name := "lead_generation", status := "idle", last_run := some 11,
            last_success := some 11, error_count := 0, tasks_completed := 1 })], true) :=
  ⟨rfl, rfl⟩

/-- C2: along any sequence of dispatch attempts in which every recorded
request is preceded by a passing `can_make_request` check, every provider's
`requests_today` stays at or below its `rate_limit_per_day`. -/
theorem C2_daily_limit_invariant (s : APIManagerState) (ops : List DispatchAttempt)
    (h : dailyInv s = true) : dailyInv (runGuarded s ops) = true := by
  induction ops generalizing s with
  | nil => exact h
  | cons op t ih => exact ih (guardedRecord s op) (dailyInv_guardedRecord op h)

/-- C2 witness: a registry with daily limits 2 and 100 satisfies the
invariant, and still satisfies it after a burst of guarded dispatch attempts
that tries to push provider `A` past its limit. -/
theorem C2_daily_limit_invariant_witness :
    dailyInv scenarioState = true ∧ dailyInv (runGuarded scenarioState c2ops) = true :=
  ⟨by decide, C2_daily_limit_invariant scenarioState c2ops (by decide)⟩

/-- C3: provider selection equals taking the spec's eligibility list (the
enabled providers matching the capability, sorted ascending by priority with
ties broken by registration order) and returning its first member passing
`can_make_request`, `none` when no member passes; and in the concrete
scenario with provider `A` (priority 1, daily limit 2) and provider `B`
(priority 2, daily limit 100), three consecutive dispatches route to `A`,
`A`, then `B`. -/
theorem C3_selection (s : APIManagerState) (api_type : String) (now : Nat) :
    get_available_api s api_type now
        = (eligibleSpec s api_type).find? (fun c => can_make_request s now c.name)
      ∧ (dispatchOnce scenarioState "lead" 0).2 = some "alead"
      ∧ (dispatchOnce (dispatchOnce scenarioState "lead" 0).1 "lead" 0).2 = some "alead"
      ∧ (dispatchOnce (dispatchOnce (dispatchOnce scenarioState "lead" 0).1 "lead" 0).1
          "lead" 0).2 = some "blead" := by
  refine ⟨?_, by decide, by decide, by decide⟩
  simp only [get_available_api, eligibleSpec]
  generalize (s.apis.filter
      (fun p => strIn (strLower api_type) (strLower p.1) && p.2.enabled)).map (fun p => p.2) = l
  cases l with
  | nil => simp [sortByPriority]
  | cons a t => simp

/-- C4: for a registered provider with a usage record, `can_make_request`
is true iff the provider is enabled, its daily count is strictly below the
daily limit, and, whenever a minute window has started (a last request time
is recorded), at least 60 seconds have passed since the window started or
the window counter is strictly below the per-minute limit. -/
theorem C4_canDispatch_iff (s : APIManagerState) (now : Nat) (api_name : String)
    (config : APIConfig) (usage : APIUsage)
    (hc : getA api_name s.apis = some config) (hu : getA api_name s.usage = some usage) :
    can_make_request s now api_name = true ↔
      (config.enabled = true ∧ (usage.requests_today : Int) < config.rate_limit_per_day ∧
        ∀ t, usage.last_request_time = some t →
          (60 ≤ now - t ∨ (usage.requests_this_minute : Int) < config.rate_limit_per_minute)) := by
  unfold can_make_request
  rw [hc, hu]
  simp only []
  by_cases hen : config.enabled = false
  · simp [hen]
  · have hen2 : config.enabled = true := by revert hen; cases config.enabled <;> simp
    rw [if_neg hen]
    by_cases hd : (usage.requests_today : Int) ≥ config.rate_limit_per_day
    · simp [hd, not_lt.mpr hd, hen2]
    · rw [if_neg hd]
      cases hl : usage.last_request_time with
      | none => simp [hen2, lt_of_not_ge hd]
      | some t =>
        by_cases hm : now - t < 60 ∧ (usage.requests_this_minute : Int) ≥ config.rate_limit_per_minute
        all_goals simp only [hen2, true_and]
        all_goals simp [hm, lt_of_not_ge hd]
        all_goals omega

/-- C4 witness: the characterization evaluated on the scenario registry
after one recorded request against provider `A` at time 3, checked at time
30, inside the open minute window. -/
theorem C4_canDispatch_iff_witness :
    can_make_request c4state 30 "alead" = true ↔
      (cfgA.enabled = true ∧ (c4usage.requests_today : Int) < cfgA.rate_limit_per_day ∧
        ∀ t, c4usage.last_request_time = some t →
          (60 ≤ 30 - t ∨ (c4usage.requests_this_minute : Int) < cfgA.rate_limit_per_minute)) :=
  C4_canDispatch_iff c4state 30 "alead" cfgA c4usage (by decide) (by decide)

/-- C5 counterexample: `add_api` accepts a configuration whose rate limits
are not positive and changes the registry (the provider appears afterwards),
instead of failing with a `ConfigError` and leaving the registry unchanged:
the source performs no validation at all. -/
theorem C5_counterexample :
    cfgZero.rate_limit_per_minute ≤ 0 ∧ cfgZero.rate_limit_per_day ≤ 0 ∧
    getA "zerolimit" emptyManager.apis = none ∧
    getA "zerolimit" (add_api emptyManager cfgZero).apis = some cfgZero := by
  refine ⟨by decide, by decide, rfl, rfl⟩

/-- C5 (amended): `add_api` performs no validation: for every configuration,
including one with `rate_limit_per_minute ≤ 0` or `rate_limit_per_day ≤ 0`,
it adds the provider or replaces the one with the same name. -/
theorem C5_registration_always_succeeds (s : APIManagerState) (config : APIConfig) :
    getA config.name (add_api s config).apis = some config :=
  getA_setA_self config.name config s.apis

/-- C6 counterexample: after a health check the stored error rate is not
`totalErrors / max(totalTasks, 1)` — with one error and two completed tasks
the code stores `50`, not `1/2`: the source multiplies the quotient by 100
to store a percentage. -/
theorem C6_counterexample :
    (health_check true c6map 0 3600 {}).error_rate
        ≠ (totalErrors c6map : ℚ) / ((max (totalTasks c6map) 1 : Nat) : ℚ)
    ∧ (health_check true c6map 0 3600 {}).error_rate = 50 := by
  constructor <;> norm_num [health_check, c6map, totalErrors, totalTasks]

/-- C6 (amended): after every health check whose database probe succeeds,
the stored error rate equals `(totalErrors / max(totalTasks, 1)) * 100`,
with `totalErrors` the sum of all agents' consecutive error counts and
`totalTasks` the sum of all agents' completed task counts. -/
theorem C6_error_rate_formula (m : List (String × AgentStatus)) (start_time now : Nat)
    (metrics : SystemMetrics) :
    (health_check true m start_time now metrics).error_rate
      = ((totalErrors m : ℚ) / ((max (totalTasks m) 1 : Nat) : ℚ)) * 100 := rfl

/-- C7: one successful run of the task runner, from any prior error count
below the threshold, sets the agent's entry to idle at the current time,
increments its completed-task count by exactly one, and resets its
consecutive error count to zero. -/
theorem C7_success_resets {α : Type} (threshold now : Nat)
    (m : List (String × AgentStatus)) (agent_name : String) (st : AgentStatus) (r : α)
    (hm : getA agent_name m = some st) (_hlt : st.error_count < threshold) :
    run_agent_task threshold m agent_name now (Except.ok r)
      = Except.ok (setA agent_name
          { st with status := "idle", last_run := some now, last_success := some now,
                    tasks_completed := st.tasks_completed + 1, error_count := 0 } m,
          some r) := by
  unfold run_agent_task
  rw [hm]

/-- C7 witness: a success from two prior consecutive errors (threshold 5)
leaves the agent idle with eight completed tasks and a zero error count. -/
theorem C7_success_resets_witness :
    run_agent_task 5 c7map "prospect_research" 42 (Except.ok (3 : Nat))
      = Except.ok (setA "prospect_research"
          { name := "prospect_research", status := "idle", last_run := some 42,
            last_success := some 42, tasks_completed := 8, error_count := 0 } c7map, some 3) :=
  C7_success_resets 5 42 c7map "prospect_research" _ 3 rfl (by decide)

/-- C8: for every outcome of the agent function — a normal return or an
arbitrary raised exception — `run_agent_task` on a registered agent returns
normally: the function's result on success, `none` on failure, and every
other agent's health record is untouched. -/
theorem C8_never_raises {α : Type} (threshold now : Nat)
    (m : List (String × AgentStatus)) (agent_name : String) (st : AgentStatus)
    (outcome : Except String α) (hm : getA agent_name m = some st) :
    ∃ m2, run_agent_task threshold m agent_name now outcome = Except.ok (m2, outcome.toOption)
      ∧ ∀ n, n ≠ agent_name → getA n m2 = getA n m := by
  unfold run_agent_task
  rw [hm]
  cases outcome with
  | ok r => exact ⟨_, rfl, fun n hn => getA_setA_ne _ _ hn⟩
  | error e => exact ⟨_, rfl, fun n hn => getA_setA_ne _ _ hn⟩

/-- C8 witness: an agent function raising an exception produces a normal
`none` return and leaves other agents' records alone. -/
theorem C8_never_raises_witness :
    ∃ m2, run_agent_task 5 c8map "sales_automation" 7
        (Except.error "boom" : Except String Nat) = Except.ok (m2, none)
      ∧ ∀ n, n ≠ "sales_automation" → getA n m2 = getA n c8map :=
  C8_never_raises 5 7 c8map "sales_automation" _ (Except.error "boom") rfl

/-- C9: `add_api` affects only the entry named by the new configuration:
every other provider's configuration and usage lookup is unchanged, the
named configuration is stored, and the named usage record is reset to a
fresh zeroed record, discarding previously consumed quota. -/
theorem C9_add_api_frame (s : APIManagerState) (config : APIConfig) (n : String)
    (h : n ≠ config.name) :
    getA n (add_api s config).apis = getA n s.apis
    ∧ getA n (add_api s config).usage = getA n s.usage
    ∧ getA config.name (add_api s config).apis = some config
    ∧ getA config.name (add_api s config).usage = some { api_name := config.name } :=
  ⟨getA_setA_ne _ _ h, getA_setA_ne _ _ h, getA_setA_self _ _ _, getA_setA_self _ _ _⟩

/-- C9 witness: re-registering provider `A` of the used scenario registry
with a fresh config leaves provider `B` alone and resets `A`'s usage. -/
theorem C9_add_api_frame_witness :
    getA "blead" (add_api c4state cfgA).apis = getA "blead" c4state.apis
    ∧ getA "blead" (add_api c4state cfgA).usage = getA "blead" c4state.usage
    ∧ getA "alead" (add_api c4state cfgA).apis = some cfgA
    ∧ getA "alead" (add_api c4state cfgA).usage = some { api_name := "alead" } :=
  C9_add_api_frame c4state cfgA "blead" (by decide)

/-- C10: a name absent from the provider map can never pass
`can_make_request`, and `get_available_api` never returns a provider whose
name is absent from the provider map, so an unregistered provider is never
selected for dispatch. -/
theorem C10_unregistered_never_dispatched (s : APIManagerState) (now : Nat)
    (api_name api_type : String) (config : APIConfig) :
    (getA api_name s.apis = none → can_make_request s now api_name = false)
    ∧ (get_available_api s api_type now = some config →
        (getA config.name s.apis).isSome = true) := by
  constructor
  · intro h
    exact can_make_request_of_unregistered h
  · intro h
    simp only [get_available_api] at h
    split at h
    · exact absurd h (by simp)
    · have h2 := List.find?_some h
      cases hg : getA config.name s.apis with
      | none =>
        rw [can_make_request_of_unregistered hg] at h2
        exact absurd h2 (by simp)
      | some c => rfl

/-- C10 witness: on the scenario registry, the unknown name `zzz` fails
`can_make_request`, and the provider the selection does return is indeed
registered. -/
theorem C10_unregistered_never_dispatched_witness :
    can_make_request scenarioState 0 "zzz" = false
    ∧ (getA cfgA.name scenarioState.apis).isSome = true :=
  ⟨(C10_unregistered_never_dispatched scenarioState 0 "zzz" "lead" cfgA).1 rfl,
   (C10_unregistered_never_dispatched scenarioState 0 "zzz" "lead" cfgA).2 (by decide)⟩

end PerfectFit
